import Mathlib

/-!
Shallow embedding of `src/ekranoplan/checks.py` (concordchat/concord-api):
the session/identity resolver (`validate_user`, `validate_member`), the
channel permission-resolution engine (`validate_channel`), the bucketed
message paginator (`search_messages`, both the listing path and the
point-lookup path), and the structural validator
(`verify_channel_position`).

External collaborators that are not part of `src/` (the Cassandra models
from `ekranoplan/database.py`, the token verifier from `ekranoplan/tokens.py`,
`get_bucket` from `ekranoplan/randoms.py`, and the permission bit flags from
`ekranoplan/flags.py`) are modelled as explicit data carried in a `Store`
record, following the spec's data-model section.
-/

namespace Concord

/-- Modelled from the spec: `User` entity of the identity store
(`ekranoplan/database.py` is not under `src/`): identifier, bot flag,
flags bitset. -/
structure User where
  id : Nat
  bot : Bool
  flags : Nat
deriving DecidableEq, Repr

/-- Modelled from the spec: `Member` entity — a user's membership in one
guild: user id, guild id, owner flag, role-id collection (consulted
first-element-only by the code). -/
structure Member where
  id : Nat
  guild_id : Nat
  owner : Bool
  roles : List Nat
deriving DecidableEq, Repr

/-- Modelled from the spec: `Guild` entity — identifier and default
permission bitset. -/
structure Guild where
  id : Nat
  permissions : Nat
deriving DecidableEq, Repr

/-- Modelled from the spec: `Role` entity — identifier and permission
bitset. -/
structure Role where
  id : Nat
  permissions : Nat
deriving DecidableEq, Repr

/-- Modelled from the spec: `PermissionOverWrites` entity — a per-user
permission exception on a channel: target user id, allow bitset, deny
bitset. -/
structure PermissionOverWrites where
  id : Nat
  allow : Nat
  deny : Nat
deriving DecidableEq, Repr

/-- Modelled from the spec: `GuildChannel` entity — identifier, guild id,
position, ordered list of permission overwrites, parent id. -/
structure GuildChannel where
  id : Nat
  guild_id : Nat
  position : Nat
  permission_overwrites : List PermissionOverWrites
  parent_id : Nat
deriving DecidableEq, Repr

/-- Modelled from the spec: `Message` entity — identifier, channel id,
bucket id, content. -/
structure Message where
  id : Nat
  channel_id : Nat
  bucket_id : Nat
  content : String
deriving DecidableEq, Repr

/-- Error taxonomy of `ekranoplan/errors.py` as used by `checks.py`
(`Forbidden`, `NotFound`, `BadData`), plus `Unauthenticated` for a failed
token verification and `DoesNotExist` for an uncaught storage-layer
`DoesNotExist` (guild/role lookup failure propagates unhandled). -/
inductive Err where
  | Unauthenticated
  | Forbidden
  | NotFound
  | BadData
  | DoesNotExist
deriving DecidableEq, Repr

/-- Modelled from the spec: the recognized permission flag names of
`ekranoplan/flags.py` (not under `src/`). `checks.py` consults the
`administator` attribute (spelling as in the source) and one dynamically
named attribute; a representative set of further named flags is included. -/
inductive Perm where
  | administator
  | send_messages
  | manage_channels
  | view_channel
  | ban_members
deriving DecidableEq, Repr

/-- Modelled from the spec: bit index of each permission flag in the
`GuildPermissions` bitset (an injective assignment; the exact indices live
in `ekranoplan/flags.py`, which is not under `src/`). -/
def Perm.bit : Perm → Nat
  | .administator => 3
  | .ban_members => 2
  | .manage_channels => 4
  | .view_channel => 10
  | .send_messages => 11

/-- Modelled from the spec: `GuildPermissions(bits)` exposes each named
flag as the corresponding bit of the bitset; `getattr(permissions, name)`
therefore tests that bit. -/
def hasPerm (bits : Nat) (p : Perm) : Bool :=
  Nat.testBit bits p.bit

/-- The externally-owned state read by `checks.py`: the token verifier
(`none` = invalid/expired token) and the stored `Member`, `Guild`, `Role`,
`GuildChannel` and `Message` rows, plus `get_bucket` from
`ekranoplan/randoms.py` (the current bucket count of a channel). -/
structure Store where
  verify_token : String → Option User
  members : List Member
  guilds : List Guild
  roles : List Role
  channels : List GuildChannel
  messages : List Message
  get_bucket : Nat → Nat

/-- `valid_session` (checks.py line 20): delegate to the token verifier;
an invalid token is `Unauthenticated`. -/
def valid_session (s : Store) (token : String) : Except Err User :=
  match s.verify_token token with
  | some u => .ok u
  | none => .error .Unauthenticated

/-- `validate_user` (checks.py lines 24-31): resolve the session, then
raise `Forbidden` if `stop_bots` is set and the user is a bot. -/
def validate_user (s : Store) (token : String) (stop_bots : Bool) : Except Err User :=
  match valid_session s token with
  | .error e => .error e
  | .ok user =>
    if stop_bots && user.bot then .error .Forbidden else .ok user

/-- Point lookup of a membership row by `(user id, guild id)`; Cassandra
`.get()` on the composite primary key returns the unique row or raises
`DoesNotExist`. -/
def find_member (s : Store) (uid guild_id : Nat) : Option Member :=
  s.members.find? (fun m => m.id == uid && m.guild_id == guild_id)

set_option linter.unusedVariables false in
/-- `validate_member` (checks.py lines 34-45). NOTE (faithful to source):
the body calls `validate_user(token=token)` WITHOUT forwarding its own
`stop_bots` argument, so `validate_user` runs with its default
`stop_bots = False`; the `stop_bots` parameter of `validate_member` is
accepted but never used. A missing membership row raises `Forbidden`. -/
def validate_member (s : Store) (token : String) (guild_id : Nat)
    (stop_bots : Bool) : Except Err (Member × User) :=
  match validate_user s token false with
  | .error e => .error e
  | .ok user =>
    match find_member s user.id guild_id with
    | none => .error .Forbidden
    | some member => .ok (member, user)

/-- Point lookup of a channel row by `(channel id, guild id)`
(checks.py lines 70-72). -/
def find_channel (s : Store) (channel_id guild_id : Nat) : Option GuildChannel :=
  s.channels.find? (fun c => c.id == channel_id && c.guild_id == guild_id)

/-- The overwrite scan of checks.py lines 79-87: first entry of the
channel's overwrite list whose target user id equals the resolved user's
id. -/
def find_overwrite (ows : List PermissionOverWrites) (uid : Nat) :
    Option PermissionOverWrites :=
  ows.find? (fun ow => ow.id == uid)

/-- Point lookup of a guild row by id (checks.py line 91). -/
def find_guild (s : Store) (guild_id : Nat) : Option Guild :=
  s.guilds.find? (fun g => g.id == guild_id)

/-- Point lookup of a role row by id (checks.py line 96). -/
def find_role (s : Store) (role_id : Nat) : Option Role :=
  s.roles.find? (fun r => r.id == role_id)

/-- The baseline permission bitset of checks.py lines 89-98: the guild's
default bitset when the member has no roles, otherwise the bitset of the
role identified by the member's first role id. `none` models an uncaught
`DoesNotExist` from the guild/role lookup. -/
def baseline (s : Store) (member : Member) (guild_id : Nat) : Option Nat :=
  match member.roles with
  | [] => (find_guild s guild_id).map Guild.permissions
  | role_id :: _ => (find_role s role_id).map Role.permissions

/-- `validate_channel` (checks.py lines 59-114): resolve the member,
look up the channel (`NotFound` if absent), grant owners unconditionally,
otherwise apply the first matching per-user overwrite (deny beats allow,
absent allow bit denies), and with no matching overwrite fall back to the
baseline bitset (administrator bit grants everything, otherwise the named
permission bit decides). -/
def validate_channel (s : Store) (token : String) (guild_id channel_id : Nat)
    (permission : Perm) (stop_bots : Bool) :
    Except Err (Member × User × GuildChannel) :=
  match validate_member s token guild_id stop_bots with
  | .error e => .error e
  | .ok (member, user) =>
    match find_channel s channel_id guild_id with
    | none => .error .NotFound
    | some channel =>
      if member.owner then .ok (member, user, channel)
      else
        match find_overwrite channel.permission_overwrites user.id with
        | some ow =>
          if hasPerm ow.deny permission then .error .Forbidden
          else if hasPerm ow.allow permission = false then .error .Forbidden
          else .ok (member, user, channel)
        | none =>
          match baseline s member guild_id with
          | none => .error .DoesNotExist
          | some bits =>
            if hasPerm bits .administator then .ok (member, user, channel)
            else if hasPerm bits permission = false then .error .Forbidden
            else .ok (member, user, channel)

/-- The rows of one `(channel id, bucket id)` partition, in storage
order. -/
def bucketContent (msgs : List Message) (channel_id bucket : Nat) : List Message :=
  msgs.filter (fun m => m.channel_id == channel_id && m.bucket_id == bucket)

/-- Insert a message into a list kept in descending-id order. -/
def insertDesc (m : Message) : List Message → List Message
  | [] => [m]
  | x :: xs => if m.id ≥ x.id then m :: x :: xs else x :: insertDesc m xs

/-- One bucket query of the listing path (checks.py lines 124-132): the
partition's rows ordered by descending id, limited to `limit` rows. -/
def bucketFetch (msgs : List Message) (channel_id bucket limit : Nat) :
    List Message :=
  ((bucketContent msgs channel_id bucket).foldr insertDesc []).take limit

/-- The listing loop of checks.py lines 123-138: scan buckets ascending,
`append` each bucket's result list WHOLESALE as one element of the
accumulator (faithful to `collected_messages.append(msgs)`), and after an
append that makes the accumulator's length exceed `limit`, slice off the
first `limit` elements and stop. -/
def listLoop (msgs : List Message) (channel_id limit : Nat) :
    List Nat → List (List Message) → List (List Message)
  | [], acc => acc
  | b :: bs, acc =>
    let acc' := acc ++ [bucketFetch msgs channel_id b limit]
    if acc'.length > limit then acc'.drop limit
    else listLoop msgs channel_id limit bs acc'

/-- `search_messages` with `message_id` absent (checks.py lines 120-140):
the listing path, scanning buckets `0` to `get_bucket(channel_id) - 1`. -/
def search_messages_list (s : Store) (channel_id limit : Nat) :
    List (List Message) :=
  listLoop s.messages channel_id limit (List.range (s.get_bucket channel_id)) []

/-- One bucket query of the point-lookup path (checks.py lines 143-154):
Cassandra `.get()` on `(message id, channel id, bucket id)` returns the row
when exactly one matches; any raised lookup error is swallowed by the bare
`except`, modelled as `none`. -/
def bucketPoint (msgs : List Message) (message_id channel_id bucket : Nat) :
    Option Message :=
  match (bucketContent msgs channel_id bucket).filter (fun m => m.id == message_id) with
  | [x] => some x
  | _ => none

/-- The point-lookup loop of checks.py lines 142-154: scan buckets
ascending, return on the first successful lookup; falling off the loop
returns `None`. -/
def pointLoop (msgs : List Message) (message_id channel_id : Nat) :
    List Nat → Option Message
  | [] => none
  | b :: bs =>
    match bucketPoint msgs message_id channel_id b with
    | some m => some m
    | none => pointLoop msgs message_id channel_id bs

/-- `search_messages` with a `message_id` (checks.py lines 141-154): the
point-lookup path, scanning buckets `0` to `get_bucket(channel_id) - 1`. -/
def search_messages_point (s : Store) (channel_id message_id : Nat) :
    Option Message :=
  pointLoop s.messages message_id channel_id (List.range (s.get_bucket channel_id))

/-- `verify_channel_position` (checks.py lines 170-186): fetch the guild's
channels, fold their positions into a running maximum starting from `0`,
and raise `BadData` unless the requested position is exactly one more. -/
def verify_channel_position (s : Store) (pos guild_id : Nat) : Except Err Unit :=
  let guild_channels := s.channels.filter (fun c => c.guild_id == guild_id)
  let highest_pos := guild_channels.foldl
    (fun acc c => if c.position > acc then c.position else acc) 0
  if pos ≠ highest_pos + 1 then .error .BadData else .ok ()

/-- The maximum `position` among a guild's channels (with `0` for a guild
with no channels; positions are naturals, so for a guild that has at least
one channel this is exactly the maximum existing position value). -/
def maxChannelPos (s : Store) (guild_id : Nat) : Nat :=
  ((s.channels.filter (fun c => c.guild_id == guild_id)).map
    GuildChannel.position).foldl Nat.max 0

/-! Concrete stores used to evaluate the definitions at specific inputs. -/

/-- A human (non-bot) user. -/
def wUser : User := ⟨1, false, 0⟩

/-- Token verifier mapping the token `tok` to `wUser`. -/
def wToken : String → Option User :=
  fun t => if t == "tok" then some wUser else none

/-- Non-owner, roleless membership of `wUser` in guild 10. -/
def wMember : Member := ⟨1, 10, false, []⟩

/-- Owner membership of `wUser` in guild 10. -/
def wOwnerMember : Member := ⟨1, 10, true, []⟩

/-- Non-owner membership of `wUser` in guild 10 carrying role 5. -/
def wRoleMember : Member := ⟨1, 10, false, [5]⟩

/-- Store whose channel 100 carries an overwrite for user 1 that both
allows and denies bit 11 (`send_messages`), in a guild whose default also
grants bit 11. -/
def W2 : Store :=
  ⟨wToken, [wMember], [⟨10, 2048⟩], [],
    [⟨100, 10, 0, [⟨1, 2048, 2048⟩], 0⟩], [], fun _ => 0⟩

/-- Store whose channel 100 carries an overwrite for user 1 allowing bit
11 and denying nothing, in a guild whose default grants nothing. -/
def W5 : Store :=
  ⟨wToken, [wMember], [⟨10, 0⟩], [],
    [⟨100, 10, 0, [⟨1, 2048, 0⟩], 0⟩], [], fun _ => 0⟩

/-- Store whose channel 100 has no overwrites, with a roleless member and
a guild default granting exactly bit 11. -/
def W6 : Store :=
  ⟨wToken, [wMember], [⟨10, 2048⟩], [],
    [⟨100, 10, 0, [], 0⟩], [], fun _ => 0⟩

/-- Store whose member carries role 5, whose bitset holds exactly the
administrator bit (bit 3), with a channel without overwrites. -/
def W7 : Store :=
  ⟨wToken, [wRoleMember], [], [⟨5, 8⟩],
    [⟨100, 10, 0, [], 0⟩], [], fun _ => 0⟩

/-- Store whose member owns guild 10, with a channel whose overwrite
denies every low bit to user 1. -/
def W8 : Store :=
  ⟨wToken, [wOwnerMember], [], [],
    [⟨100, 10, 0, [⟨1, 0, 4294967295⟩], 0⟩], [], fun _ => 0⟩

/-- Store with messages 5 (bucket 0) and 6 (bucket 1) in channel 1, whose
current bucket count is 2. -/
def W4 : Store :=
  ⟨wToken, [], [], [], [],
    [⟨5, 1, 0, "a"⟩, ⟨6, 1, 1, "b"⟩], fun _ => 2⟩

/-- Store whose guild 10 holds channels at positions 2 and 1 (and an
unrelated guild 99 channel at position 5). -/
def W9 : Store :=
  ⟨wToken, [], [], [],
    [⟨100, 10, 2, [], 0⟩, ⟨101, 10, 1, [], 0⟩, ⟨102, 99, 5, [], 0⟩],
    [], fun _ => 0⟩

/-- Store with one message in bucket 0 of channel 1 and a current bucket
count of 1. -/
def W10a : Store :=
  ⟨wToken, [], [], [], [], [⟨1, 1, 0, "x"⟩], fun _ => 1⟩

/-- Same as `W10a` except for an extra message in bucket 1 of channel 1 —
the bucket index equal to the current bucket count. -/
def W10b : Store :=
  ⟨wToken, [], [], [], [],
    [⟨1, 1, 0, "x"⟩, ⟨9, 1, 1, "y"⟩], fun _ => 1⟩

/-- A bot user. -/
def c1User : User := ⟨7, true, 0⟩

/-- Owner membership of the bot user `c1User` in guild 10. -/
def c1Member : Member := ⟨7, 10, true, []⟩

/-- The channel of guild 10 in `c1Store`. -/
def c1Channel : GuildChannel := ⟨100, 10, 0, [], 0⟩

/-- Store whose token `tok` verifies to the bot user `c1User`, who is a
member of guild 10 holding channel 100. -/
def c1Store : Store :=
  ⟨fun t => if t == "tok" then some c1User else none,
    [c1Member], [], [], [c1Channel], [], fun _ => 0⟩

/-- Channel-1 messages of `c3Store`: two in bucket 0, two in bucket 1. -/
def c3Messages : List Message :=
  [⟨1, 1, 0, "m1"⟩, ⟨2, 1, 0, "m2"⟩, ⟨3, 1, 1, "m3"⟩, ⟨4, 1, 1, "m4"⟩]

/-- Store whose channel 1 has two buckets holding two messages each. -/
def c3Store : Store :=
  ⟨fun _ => none, [], [], [], [], c3Messages, fun _ => 2⟩

/-! Theorems. -/

/-- Evaluation of `validate_channel` once the member resolution and the
channel lookup are known: the remaining decision is the owner bypass, the
overwrite tier, and the baseline tier, exactly as in checks.py
lines 76-114. -/
theorem validate_channel_eq (s : Store) (token : String)
    (guild_id channel_id : Nat) (p : Perm) (sb : Bool)
    (member : Member) (user : User) (channel : GuildChannel)
    (hm : validate_member s token guild_id sb = .ok (member, user))
    (hch : find_channel s channel_id guild_id = some channel) :
    validate_channel s token guild_id channel_id p sb =
      if member.owner then .ok (member, user, channel)
      else
        match find_overwrite channel.permission_overwrites user.id with
        | some ow =>
          if hasPerm ow.deny p then .error .Forbidden
          else if hasPerm ow.allow p = false then .error .Forbidden
          else .ok (member, user, channel)
        | none =>
          match baseline s member guild_id with
          | none => .error .DoesNotExist
          | some bits =>
            if hasPerm bits .administator then .ok (member, user, channel)
            else if hasPerm bits p = false then .error .Forbidden
            else .ok (member, user, channel) := by
  unfold validate_channel
  rw [hm, hch]

/-- Claim C8: a member flagged as guild owner is granted every permission
by `validate_channel` once the member resolution and the channel lookup
succeed, whatever the channel's overwrites, the member's roles, or the
guild defaults in the store, and the resolved member, user and channel are
returned. -/
theorem c8_owner_bypasses_everything (s : Store) (token : String)
    (guild_id channel_id : Nat) (sb : Bool)
    (member : Member) (user : User) (channel : GuildChannel)
    (hm : validate_member s token guild_id sb = .ok (member, user))
    (hown : member.owner = true)
    (hch : find_channel s channel_id guild_id = some channel) :
    ∀ p : Perm, validate_channel s token guild_id channel_id p sb
      = .ok (member, user, channel) := by
  intro p
  rw [validate_channel_eq s token guild_id channel_id p sb member user channel hm hch,
    hown]
  simp

/-- Witness for C8: in `W8` the owner member is granted `send_messages` on
channel 100 although the channel's only overwrite denies every low bit to
that user. -/
theorem c8_witness :
    validate_channel W8 "tok" 10 100 Perm.send_messages false
      = .ok (wOwnerMember, wUser, ⟨100, 10, 0, [⟨1, 0, 4294967295⟩], 0⟩) :=
  c8_owner_bypasses_everything W8 "tok" 10 100 false wOwnerMember wUser
    ⟨100, 10, 0, [⟨1, 0, 4294967295⟩], 0⟩ rfl rfl rfl Perm.send_messages

/-- Claim C2: for a non-owner member whose first matching channel
overwrite denies permission `p`, `validate_channel` fails with `Forbidden`
regardless of the overwrite's allow bitset, and regardless of the stored
roles and guilds (they are never consulted when an overwrite matches). -/
theorem c2_overwrite_deny_wins (s : Store) (token : String)
    (guild_id channel_id : Nat) (p : Perm) (sb : Bool)
    (member : Member) (user : User) (channel : GuildChannel)
    (ow : PermissionOverWrites)
    (hm : validate_member s token guild_id sb = .ok (member, user))
    (hown : member.owner = false)
    (hch : find_channel s channel_id guild_id = some channel)
    (how : find_overwrite channel.permission_overwrites user.id = some ow)
    (hdeny : hasPerm ow.deny p = true) :
    validate_channel s token guild_id channel_id p sb = .error .Forbidden
    ∧ ∀ (rs : List Role) (gs : List Guild),
        validate_channel { s with roles := rs, guilds := gs }
          token guild_id channel_id p sb = .error .Forbidden := by
  have key : ∀ (rs : List Role) (gs : List Guild),
      validate_channel { s with roles := rs, guilds := gs }
        token guild_id channel_id p sb = .error .Forbidden := by
    intro rs gs
    have hm' : validate_member { s with roles := rs, guilds := gs }
        token guild_id sb = .ok (member, user) := hm
    have hch' : find_channel { s with roles := rs, guilds := gs }
        channel_id guild_id = some channel := hch
    rw [validate_channel_eq { s with roles := rs, guilds := gs }
      token guild_id channel_id p sb member user channel hm' hch', hown, how]
    simp [hdeny]
  exact ⟨key s.roles s.guilds, key⟩

/-- Witness for C2: in `W2` (overwrite for user 1 allowing and denying
bit 11, guild default granting bit 11) the permission `send_messages` is
denied, also when the role and guild tables are replaced by ones granting
everything. -/
theorem c2_witness :
    validate_channel W2 "tok" 10 100 Perm.send_messages false
        = .error .Forbidden
    ∧ validate_channel { W2 with roles := [⟨5, 4294967295⟩], guilds := [⟨10, 4294967295⟩] }
        "tok" 10 100 Perm.send_messages false = .error .Forbidden := by
  have h := c2_overwrite_deny_wins W2 "tok" 10 100 Perm.send_messages false
    wMember wUser ⟨100, 10, 0, [⟨1, 2048, 2048⟩], 0⟩ ⟨1, 2048, 2048⟩
    rfl rfl rfl rfl (by decide)
  exact ⟨h.1, h.2 [⟨5, 4294967295⟩] [⟨10, 4294967295⟩]⟩

/-- Claim C5: for a non-owner member whose first matching channel
overwrite allows permission `p` and does not deny it, `validate_channel`
succeeds — in particular even when the member has no roles and the guild
default lacks `p`, since neither is consulted. -/
theorem c5_overwrite_allow_grants (s : Store) (token : String)
    (guild_id channel_id : Nat) (p : Perm) (sb : Bool)
    (member : Member) (user : User) (channel : GuildChannel)
    (ow : PermissionOverWrites)
    (hm : validate_member s token guild_id sb = .ok (member, user))
    (hown : member.owner = false)
    (hch : find_channel s channel_id guild_id = some channel)
    (how : find_overwrite channel.permission_overwrites user.id = some ow)
    (hallow : hasPerm ow.allow p = true)
    (hdeny : hasPerm ow.deny p = false) :
    validate_channel s token guild_id channel_id p sb
      = .ok (member, user, channel) := by
  rw [validate_channel_eq s token guild_id channel_id p sb member user channel hm hch,
    hown, how]
  simp [hallow, hdeny]

/-- Witness for C5: in `W5` the roleless member, in a guild whose default
grants nothing, is granted `send_messages` through the overwrite. -/
theorem c5_witness :
    validate_channel W5 "tok" 10 100 Perm.send_messages false
      = .ok (wMember, wUser, ⟨100, 10, 0, [⟨1, 2048, 0⟩], 0⟩) :=
  c5_overwrite_allow_grants W5 "tok" 10 100 Perm.send_messages false
    wMember wUser ⟨100, 10, 0, [⟨1, 2048, 0⟩], 0⟩ ⟨1, 2048, 0⟩
    rfl rfl rfl rfl (by decide) (by decide)

/-- Claim C7: for a non-owner member with no matching overwrite whose
baseline bitset (first role's bitset, or the guild default when roleless)
holds the administrator bit, `validate_channel` succeeds for every
recognized permission name. -/
theorem c7_admin_baseline_grants_all (s : Store) (token : String)
    (guild_id channel_id : Nat) (sb : Bool)
    (member : Member) (user : User) (channel : GuildChannel) (bits : Nat)
    (hm : validate_member s token guild_id sb = .ok (member, user))
    (hown : member.owner = false)
    (hch : find_channel s channel_id guild_id = some channel)
    (how : find_overwrite channel.permission_overwrites user.id = none)
    (hb : baseline s member guild_id = some bits)
    (hadmin : hasPerm bits Perm.administator = true) :
    ∀ p : Perm, validate_channel s token guild_id channel_id p sb
      = .ok (member, user, channel) := by
  intro p
  rw [validate_channel_eq s token guild_id channel_id p sb member user channel hm hch,
    hown, how, hb]
  simp [hadmin]

/-- Witness for C7: in `W7` the member's first (only) role holds exactly
the administrator bit, and `send_messages` — absent from that bitset — is
granted anyway. -/
theorem c7_witness :
    validate_channel W7 "tok" 10 100 Perm.send_messages false
      = .ok (wRoleMember, wUser, ⟨100, 10, 0, [], 0⟩) :=
  c7_admin_baseline_grants_all W7 "tok" 10 100 false
    wRoleMember wUser ⟨100, 10, 0, [], 0⟩ 8
    rfl rfl rfl rfl rfl (by decide) Perm.send_messages

/-- Claim C6: for a non-owner member with no matching overwrite and no
roles, `validate_channel` succeeds exactly when the guild's default bitset
holds the named permission or the administrator bit, and the stored roles
are never consulted (the outcome is unchanged under any role table). -/
theorem c6_roleless_guild_default (s : Store) (token : String)
    (guild_id channel_id : Nat) (p : Perm) (sb : Bool)
    (member : Member) (user : User) (channel : GuildChannel) (guild : Guild)
    (hm : validate_member s token guild_id sb = .ok (member, user))
    (hown : member.owner = false)
    (hch : find_channel s channel_id guild_id = some channel)
    (how : find_overwrite channel.permission_overwrites user.id = none)
    (hroles : member.roles = [])
    (hg : find_guild s guild_id = some guild) :
    (validate_channel s token guild_id channel_id p sb
        = .ok (member, user, channel)
      ↔ (hasPerm guild.permissions p = true
          ∨ hasPerm guild.permissions Perm.administator = true))
    ∧ ∀ rs : List Role,
        validate_channel { s with roles := rs } token guild_id channel_id p sb
          = validate_channel s token guild_id channel_id p sb := by
  have hbase : ∀ rs : List Role,
      baseline { s with roles := rs } member guild_id
        = some guild.permissions := by
    intro rs
    have hg' : find_guild { s with roles := rs } guild_id = some guild := hg
    simp [baseline, hroles, hg']
  have key : ∀ rs : List Role,
      validate_channel { s with roles := rs } token guild_id channel_id p sb
        = if hasPerm guild.permissions Perm.administator then
            .ok (member, user, channel)
          else if hasPerm guild.permissions p = false then .error .Forbidden
          else .ok (member, user, channel) := by
    intro rs
    have hm' : validate_member { s with roles := rs } token guild_id sb
        = .ok (member, user) := hm
    have hch' : find_channel { s with roles := rs } channel_id guild_id
        = some channel := hch
    rw [validate_channel_eq { s with roles := rs } token guild_id channel_id
      p sb member user channel hm' hch', hown, how, hbase rs]
    simp
  have hs : validate_channel s token guild_id channel_id p sb
      = if hasPerm guild.permissions Perm.administator then
          .ok (member, user, channel)
        else if hasPerm guild.permissions p = false then .error .Forbidden
        else .ok (member, user, channel) := key s.roles
  constructor
  · rw [hs]
    cases h1 : hasPerm guild.permissions Perm.administator <;>
      cases h2 : hasPerm guild.permissions p <;> simp [h1, h2]
  · intro rs
    rw [key rs, hs]

/-- Witness for C6: in `W6` (guild default exactly bit 11, roleless member)
`send_messages` is granted, and the outcome is unchanged when the role
table is replaced by one whose role 5 grants nothing. -/
theorem c6_witness :
    (validate_channel W6 "tok" 10 100 Perm.send_messages false
        = .ok (wMember, wUser, ⟨100, 10, 0, [], 0⟩)
      ↔ (hasPerm 2048 Perm.send_messages = true
          ∨ hasPerm 2048 Perm.administator = true))
    ∧ validate_channel { W6 with roles := [⟨5, 0⟩] } "tok" 10 100
        Perm.send_messages false
        = validate_channel W6 "tok" 10 100 Perm.send_messages false := by
  have h := c6_roleless_guild_default W6 "tok" 10 100 Perm.send_messages false
    wMember wUser ⟨100, 10, 0, [], 0⟩ ⟨10, 2048⟩ rfl rfl rfl rfl rfl rfl
  exact ⟨h.1, h.2 [⟨5, 0⟩]⟩

/-- Claim C1 (failing input): the token `tok` of `c1Store` verifies to a
bot account, yet `validate_member` with `stop_bots = true` returns the
membership instead of failing with `Forbidden` — the source drops its
`stop_bots` argument when calling `validate_user` — and `validate_channel`
with `stop_bots = true` likewise authorizes the bot. -/
theorem c1_stop_bots_dropped :
    c1User.bot = true
    ∧ validate_member c1Store "tok" 10 true = .ok (c1Member, c1User)
    ∧ validate_channel c1Store "tok" 10 100 Perm.send_messages true
        = .ok (c1Member, c1User, c1Channel) :=
  ⟨rfl, rfl, rfl⟩

/-- Helper: the running-maximum fold of `verify_channel_position` computes
the `Nat.max` fold of the positions. -/
theorem foldl_pos_max (l : List GuildChannel) (a : Nat) :
    l.foldl (fun acc c => if c.position > acc then c.position else acc) a
      = (l.map GuildChannel.position).foldl Nat.max a := by
  induction l generalizing a with
  | nil => rfl
  | cons c cs ih =>
    simp only [List.foldl_cons, List.map_cons]
    rw [ih]
    have hmax : (if c.position > a then c.position else a)
        = Nat.max a c.position := by
      unfold Nat.max
      split <;> omega
    rw [hmax]

set_option linter.unusedVariables false in
/-- Claim C9: for a guild that has at least one channel (so that the
maximum existing position is the value `maxChannelPos` computes),
`verify_channel_position` succeeds exactly when the requested position is
one more than the maximum existing position, and fails with the
invalid-data error (`BadData`) otherwise; the embedding is a pure
read-only function, so no mutation occurs. -/
theorem c9_position_must_be_max_plus_one (s : Store) (pos guild_id : Nat)
    (hne : ∃ c ∈ s.channels, c.guild_id = guild_id) :
    (verify_channel_position s pos guild_id = .ok ()
      ↔ pos = maxChannelPos s guild_id + 1)
    ∧ (pos ≠ maxChannelPos s guild_id + 1 →
        verify_channel_position s pos guild_id = .error .BadData) := by
  have hv : verify_channel_position s pos guild_id
      = if pos ≠ maxChannelPos s guild_id + 1 then .error .BadData
        else .ok () := by
    unfold verify_channel_position maxChannelPos
    simp only [foldl_pos_max]
  constructor
  · rw [hv]
    by_cases h : pos = maxChannelPos s guild_id + 1 <;> simp [h]
  · intro h
    rw [hv]
    simp [h]

/-- Witness for C9: guild 10 of `W9` has channels at positions 2 and 1, so
position 3 is accepted and position 2 is rejected with `BadData`. -/
theorem c9_witness :
    verify_channel_position W9 3 10 = .ok ()
    ∧ verify_channel_position W9 2 10 = .error .BadData := by
  constructor
  · exact (c9_position_must_be_max_plus_one W9 3 10 (by decide)).1.mpr (by decide)
  · exact (c9_position_must_be_max_plus_one W9 2 10 (by decide)).2 (by decide)

/-- Claim C3 (failing input): in `c3Store` (two buckets of two messages
each for channel 1) the listing path called with `limit = 2` returns a
sequence whose two elements are each one bucket's two-message result list —
four messages in total, exceeding the limit, and a nesting that contradicts
the source's own `List[Message]` return annotation. -/
theorem c3_limit_exceeded :
    (search_messages_list c3Store 1 2).map List.length = [2, 2] := rfl

/-- Helper: the point-lookup loop returns `none` when every scanned
bucket's query returns `none`. -/
theorem pointLoop_eq_none (msgs : List Message) (message_id channel_id : Nat)
    (l : List Nat)
    (h : ∀ b ∈ l, bucketPoint msgs message_id channel_id b = none) :
    pointLoop msgs message_id channel_id l = none := by
  induction l with
  | nil => rfl
  | cons b bs ih =>
    unfold pointLoop
    rw [h b (List.mem_cons_self b bs)]
    exact ih (fun x hx => h x (List.mem_cons_of_mem b hx))

/-- Helper: the point-lookup loop returns `some m` when exactly the bucket
index `target`, present in the scanned list, yields `m` and every other
bucket yields nothing. -/
theorem pointLoop_eq_some (msgs : List Message)
    (message_id channel_id target : Nat) (m : Message) (l : List Nat)
    (hmem : target ∈ l)
    (h : ∀ b : Nat, bucketPoint msgs message_id channel_id b
        = if b = target then some m else none) :
    pointLoop msgs message_id channel_id l = some m := by
  induction l with
  | nil => cases hmem
  | cons b bs ih =>
    unfold pointLoop
    rw [h b]
    by_cases hb : b = target
    · rw [if_pos hb]
    · rw [if_neg hb]
      have htail : target ∈ bs := by
        rcases List.mem_cons.mp hmem with h1 | h1
        · exact absurd h1.symm hb
        · exact h1
      exact ih htail

/-- Helper: when the messages holding identifier `message_id` in
`channel_id` are exactly `[m]`, a bucket's point query returns `m` at
`m`'s bucket index and `none` at every other index. -/
theorem bucketPoint_char (msgs : List Message) (message_id channel_id : Nat)
    (m : Message)
    (hf : msgs.filter
        (fun x => x.id == message_id && x.channel_id == channel_id) = [m]) :
    ∀ b : Nat, bucketPoint msgs message_id channel_id b
      = if b = m.bucket_id then some m else none := by
  intro b
  have hcomm : (bucketContent msgs channel_id b).filter
        (fun x => x.id == message_id)
      = (msgs.filter
          (fun x => x.id == message_id && x.channel_id == channel_id)).filter
          (fun x => x.bucket_id == b) := by
    unfold bucketContent
    rw [List.filter_filter, List.filter_filter]
    apply List.filter_congr
    intro x _
    cases hx1 : (x.id == message_id) <;>
      cases hx2 : (x.channel_id == channel_id) <;>
      cases hx3 : (x.bucket_id == b) <;> simp [hx1, hx2, hx3]
  unfold bucketPoint
  rw [hcomm, hf]
  by_cases hb : b = m.bucket_id
  · subst hb
    simp [List.filter]
  · have hbf : (m.bucket_id == b) = false := by
      simp
      exact fun h1 => hb h1.symm
    simp [List.filter, hbf, hb]

/-- Claim C4: the point-lookup path of `search_messages` is absent for any
identifier that matches no stored message of the channel, and returns the
exact stored message for an identifier stored uniquely in the channel, for
every bucket index the message lands in within the scanned range. -/
theorem c4_point_lookup_exact (s : Store) (channel_id message_id : Nat) :
    ((∀ m ∈ s.messages, ¬(m.id = message_id ∧ m.channel_id = channel_id)) →
      search_messages_point s channel_id message_id = none)
    ∧ (∀ m : Message,
        s.messages.filter
          (fun x => x.id == message_id && x.channel_id == channel_id) = [m] →
        m.bucket_id < s.get_bucket channel_id →
        search_messages_point s channel_id message_id = some m) := by
  constructor
  · intro h
    unfold search_messages_point
    apply pointLoop_eq_none
    intro b _
    unfold bucketPoint
    have hfe : (bucketContent s.messages channel_id b).filter
        (fun x => x.id == message_id) = [] := by
      rw [List.filter_eq_nil_iff]
      intro x hx hxid
      unfold bucketContent at hx
      obtain ⟨hxm, hxp⟩ := List.mem_filter.mp hx
      simp at hxp hxid
      exact h x hxm ⟨hxid, hxp.1⟩
    rw [hfe]
  · intro m hf hb
    unfold search_messages_point
    exact pointLoop_eq_some s.messages message_id channel_id m.bucket_id m
      (List.range (s.get_bucket channel_id)) (List.mem_range.mpr hb)
      (bucketPoint_char s.messages message_id channel_id m hf)

/-- Witness for C4: in `W4` (messages 5 and 6 in buckets 0 and 1 of
channel 1, current bucket count 2) identifier 6 — landing in bucket 1 —
is found exactly, and the never-inserted identifier 9 is absent. -/
theorem c4_witness :
    search_messages_point W4 1 6 = some ⟨6, 1, 1, "b"⟩
    ∧ search_messages_point W4 1 9 = none := by
  constructor
  · exact (c4_point_lookup_exact W4 1 6).2 ⟨6, 1, 1, "b"⟩ (by decide) (by decide)
  · exact (c4_point_lookup_exact W4 1 9).1 (by decide)

/-- Helper: the listing loop's outcome depends only on the bucket
partitions it scans. -/
theorem listLoop_congr (msgs1 msgs2 : List Message) (channel_id limit : Nat)
    (l : List Nat) (acc : List (List Message))
    (h : ∀ b ∈ l,
      bucketContent msgs1 channel_id b = bucketContent msgs2 channel_id b) :
    listLoop msgs1 channel_id limit l acc
      = listLoop msgs2 channel_id limit l acc := by
  induction l generalizing acc with
  | nil => rfl
  | cons b bs ih =>
    have hbf : bucketFetch msgs1 channel_id b limit
        = bucketFetch msgs2 channel_id b limit := by
      unfold bucketFetch
      rw [h b (List.mem_cons_self b bs)]
    simp only [listLoop]
    rw [hbf]
    split
    · rfl
    · exact ih _ (fun x hx => h x (List.mem_cons_of_mem b hx))

/-- Helper: the point-lookup loop's outcome depends only on the bucket
partitions it scans. -/
theorem pointLoop_congr (msgs1 msgs2 : List Message)
    (message_id channel_id : Nat) (l : List Nat)
    (h : ∀ b ∈ l,
      bucketContent msgs1 channel_id b = bucketContent msgs2 channel_id b) :
    pointLoop msgs1 message_id channel_id l
      = pointLoop msgs2 message_id channel_id l := by
  induction l with
  | nil => rfl
  | cons b bs ih =>
    have hbp : bucketPoint msgs1 message_id channel_id b
        = bucketPoint msgs2 message_id channel_id b := by
      unfold bucketPoint
      rw [h b (List.mem_cons_self b bs)]
    unfold pointLoop
    rw [hbp]
    cases hv : bucketPoint msgs2 message_id channel_id b with
    | some m => rfl
    | none => exact ih (fun x hx => h x (List.mem_cons_of_mem b hx))

/-- Claim C10: both paths of `search_messages` read only the bucket
partitions with index strictly below the current bucket count — two stores
agreeing there (and on the count) give identical results, however their
other buckets (including the one at the count itself) differ — and with a
count of `0` the listing path returns the empty accumulator and the
point-lookup path returns `none` without reading any bucket. -/
theorem c10_scan_window (s1 s2 : Store) (channel_id limit message_id : Nat)
    (hcb : s1.get_bucket channel_id = s2.get_bucket channel_id)
    (hagree : ∀ b, b < s1.get_bucket channel_id →
      bucketContent s1.messages channel_id b
        = bucketContent s2.messages channel_id b) :
    (search_messages_list s1 channel_id limit
        = search_messages_list s2 channel_id limit
      ∧ search_messages_point s1 channel_id message_id
        = search_messages_point s2 channel_id message_id)
    ∧ (s1.get_bucket channel_id = 0 →
        search_messages_list s1 channel_id limit = []
        ∧ search_messages_point s1 channel_id message_id = none) := by
  refine ⟨⟨?_, ?_⟩, ?_⟩
  · unfold search_messages_list
    rw [← hcb]
    exact listLoop_congr s1.messages s2.messages channel_id limit
      (List.range (s1.get_bucket channel_id)) []
      (fun b hb => hagree b (List.mem_range.mp hb))
  · unfold search_messages_point
    rw [← hcb]
    exact pointLoop_congr s1.messages s2.messages message_id channel_id
      (List.range (s1.get_bucket channel_id))
      (fun b hb => hagree b (List.mem_range.mp hb))
  · intro h0
    unfold search_messages_list search_messages_point
    rw [h0]
    exact ⟨rfl, rfl⟩

/-- Witness for C10: `W10b` extends `W10a` by a message in bucket 1 of
channel 1 — the index equal to the current bucket count — and both paths
return identical results on the two stores; in particular the point lookup
of that extra message's identifier 9 is `none` in both. -/
theorem c10_witness :
    search_messages_list W10a 1 50 = search_messages_list W10b 1 50
    ∧ search_messages_point W10a 1 9 = search_messages_point W10b 1 9 :=
  (c10_scan_window W10a W10b 1 50 9 rfl
    (by
      intro b hb
      have hb0 : b = 0 := by
        have : b < 1 := hb
        omega
      subst hb0
      rfl)).1

end Concord
